import Mathlib

/-!
Shallow embedding of the radio-gaga playback-and-metadata core
(src/utils/stream_manager.py and src/utils/now_playing.py).

External effects are modelled as explicit oracle parameters passed to each
operation: process spawning (does Popen succeed, which pid does it return),
teardown (graceful SIGTERM, forced SIGKILL after the 5 s wait, or an
unexpected exception), liveness polling, the HTTP fetch outcome, the ffprobe
tag payload, and wall-clock time.  Python dict aliasing in the metadata cache
is modelled with an explicit heap of TrackInfo records addressed by naturals.
-/

/-- A configured stream: the Python dict with keys name and url
(stream list handed to both constructors). -/
structure RadioStream where
  name : String
  url : String
deriving DecidableEq

namespace StreamManager

/-- The mutable fields of StreamManager (stream_manager.py lines 30-32).
streams is the id-indexed table built by enumerate, so ids are exactly the
positions 0..n-1; current_process is the ffplay Popen handle, modelled by the
pid it wraps; current_stream_id is the active id.  nextPid is the spawn
oracle: the pid the next successful Popen returns (fresh, increasing). -/
structure SMState where
  streams : List RadioStream
  current_process : Option Nat
  current_stream_id : Option Nat
  nextPid : Nat
deriving DecidableEq

/-- How a stop() teardown went (stream_manager.py lines 102-131): graceful
SIGTERM within the 5 s wait, forced SIGKILL after TimeoutExpired, or an
unexpected exception caught by the final except block.  The Python code
clears current_process and current_stream_id on all three paths; only the
returned Bool differs (False on the exception path). -/
inductive StopOutcome where
  | graceful
  | forced
  | raised
deriving DecidableEq

/-- stream_manager.py lines 91-131 (StreamManager.stop): returns False and
changes nothing if no process is active; otherwise clears both fields and
returns True unless the teardown raised. -/
def stop (s : SMState) (o : StopOutcome) : SMState × Bool :=
  match s.current_process with
  | none => (s, false)
  | some _ =>
    ({ s with current_process := none, current_stream_id := none },
      match o with
      | StopOutcome.raised => false
      | StopOutcome.graceful => true
      | StopOutcome.forced => true)

/-- The successful Popen call and the assignment of current_stream_id that
follows it (stream_manager.py lines 62-76): the handle of the fresh decoder
process is stored and the id recorded. -/
def launch (s : SMState) (id : Nat) : SMState :=
  { s with current_process := some s.nextPid,
           current_stream_id := some id,
           nextPid := s.nextPid + 1 }

/-- stream_manager.py lines 39-89 (StreamManager.play).  spawnOk is the spawn
oracle (false when ffplay is missing or Popen raises); o is the teardown
oracle for the embedded stop() call issued when a process is active. -/
def play (s : SMState) (id : Nat) (o : StopOutcome) (spawnOk : Bool) : SMState × Bool :=
  if id < s.streams.length then
    match s.current_process with
    | some _ =>
      if spawnOk then (launch (stop s o).1 id, true) else ((stop s o).1, false)
    | none =>
      if spawnOk then (launch s id, true) else (s, false)
  else (s, false)

/-- stream_manager.py lines 133-153 (StreamManager.switch): unknown id fails;
an already-active id short-circuits to True; otherwise stop() then play(). -/
def switch (s : SMState) (id : Nat) (o1 o2 : StopOutcome) (spawnOk : Bool) : SMState × Bool :=
  if id < s.streams.length then
    if s.current_stream_id = some id then (s, true)
    else play (stop s o1).1 id o2 spawnOk
  else (s, false)

/-- The status_info dict built by StreamManager.status
(stream_manager.py lines 162-169). -/
structure StatusInfo where
  is_playing : Bool
  current_stream_id : Option Nat
  current_stream_name : Option String
  current_stream_url : Option String
  process_alive : Bool
  available_streams : Nat
deriving DecidableEq

/-- The stream-field half of status() (stream_manager.py lines 183-187),
applied to the possibly self-healed state: defaults plus, when
current_stream_id is set and indexes the table, the id, name and url. -/
def mkStatusInfo (s : SMState) : StatusInfo :=
  match s.current_stream_id with
  | none => ⟨false, none, none, none, false, s.streams.length⟩
  | some id =>
    match s.streams.get? id with
    | none => ⟨false, none, none, none, false, s.streams.length⟩
    | some st => ⟨false, some id, some st.name, some st.url, false, s.streams.length⟩

/-- stream_manager.py lines 155-189 (StreamManager.status).  pollAlive is the
poll() oracle: true when the decoder process is still running.  When the
process has exited on its own the method clears both fields before building
the stream half of the snapshot (self-healing). -/
def status (s : SMState) (pollAlive : Bool) : SMState × StatusInfo :=
  match s.current_process with
  | none => (s, mkStatusInfo s)
  | some _ =>
    if pollAlive then
      (s, { mkStatusInfo s with is_playing := true, process_alive := true })
    else
      (⟨s.streams, none, none, s.nextPid⟩, mkStatusInfo ⟨s.streams, none, none, s.nextPid⟩)

/-- The state built by StreamManager.__init__ (stream_manager.py lines 30-32):
no process, no id. -/
def initState (streams : List RadioStream) : SMState := ⟨streams, none, none, 0⟩

/-- The PlaybackState invariant of spec section 3: current_stream_id is
non-null iff the process handle is non-null. -/
def smInv (s : SMState) : Prop := s.current_stream_id = none ↔ s.current_process = none

instance (s : SMState) : Decidable (smInv s) := by
  unfold smInv; infer_instance

end StreamManager

namespace NowPlayingFetcher

/-- A track dict as built by _get_track_from_nts, _fetch_icy_metadata or
_get_unknown_track (now_playing.py).  The nts variant carries a location and
no genre; the icy variant a genre and no location; absent keys are none. -/
structure TrackInfo where
  artist : String
  title : String
  show' : String
  location : Option String
  genre : Option String
  source : String
deriving DecidableEq

/-- The heap of track dicts.  Python track dicts are mutable objects shared
by reference; an address is an index into this list.  Allocation appends, so
existing addresses are never invalidated. -/
abbrev TrackHeap : Type := List TrackInfo

/-- Reading the track object stored at an address. -/
def heapGet (h : TrackHeap) (a : Nat) : Option TrackInfo :=
  List.get? h a

/-- Mutating the track object stored at an address in place (a Python
assignment through a shared reference, e.g. d['artist'] = x rebuilt as a
whole-record write). -/
def heapSet (h : TrackHeap) (a : Nat) (t : TrackInfo) : TrackHeap :=
  List.set h a t

/-- Number of allocated track objects. -/
def heapLen (h : TrackHeap) : Nat := List.length h

/-- A cache entry dict (now_playing.py lines 104-108): track_info holds the
address of the shared track object, the other two fields are plain values. -/
structure CacheEntry where
  track_info : Nat
  last_updated : Option String
  source : String
deriving DecidableEq

/-- The cache dict, name to entry; insertion-ordered like a Python dict. -/
abbrev NPCache : Type := List (String × CacheEntry)

/-- Dict read: self.cache[name] when present. -/
def lookupCache (c : NPCache) (k : String) : Option CacheEntry :=
  match c with
  | [] => none
  | p :: rest => if p.1 = k then some p.2 else lookupCache rest k

/-- Dict write self.cache[k] = v: overwrite in place if the key exists,
otherwise append. -/
def setCache (c : NPCache) (k : String) (v : CacheEntry) : NPCache :=
  match c with
  | [] => [(k, v)]
  | p :: rest => if p.1 = k then (k, v) :: rest else p :: setCache rest k v

/-- The in-place mutation self.cache[k]['source'] = 'error'
(now_playing.py line 114). -/
def markError (c : NPCache) (k : String) : NPCache :=
  match c with
  | [] => []
  | p :: rest =>
    if p.1 = k then (p.1, ⟨p.2.track_info, p.2.last_updated, "error"⟩) :: rest
    else p :: markError rest k

/-- The value a caller observes for one entry: the entry with its track
address dereferenced.  Addresses written by the fetcher are always live, so
the default of the dereference is never read. -/
structure EntryView where
  track_info : TrackInfo
  last_updated : Option String
  source : String
deriving DecidableEq

/-- now_playing.py lines 265-277 (_get_unknown_track). -/
def get_unknown_track : TrackInfo :=
  ⟨"Unknown", "Unknown", "Live Stream", none, none, "unknown"⟩

/-- A current_track record of the NTS payload ({artist, title}); keys may be
missing. -/
structure NtsTrack where
  artist : Option String
  title : Option String
deriving DecidableEq

/-- A 'now' broadcast record of the NTS payload. -/
structure NtsBroadcast where
  broadcast_title : Option String
  location : Option String
  current_track : Option NtsTrack
deriving DecidableEq

/-- A channel record of the NTS payload; now is none when the 'now' key is
missing or falsy (the code does channel.get('now', {}) and skips a falsy
result). -/
structure NtsChannel where
  channel_name : Option String
  now : Option NtsBroadcast
deriving DecidableEq

/-- The NTS live payload; results is none when the 'results' key is missing
(the code checks 'results' not in nts_data). -/
structure NtsData where
  results : Option (List NtsChannel)
deriving DecidableEq

/-- The hardcoded name-to-channel mapping rule (now_playing.py lines 163-165):
stream NTS1 matches channel name NTS 1, stream NTS2 matches NTS 2, compared
after upper-casing. -/
def channel_matches (stream_name : String) (ch : NtsChannel) : Bool :=
  ((String.toUpper stream_name = "NTS1") && (String.toUpper ((ch.channel_name).getD "") = "NTS 1"))
  || ((String.toUpper stream_name = "NTS2") && (String.toUpper ((ch.channel_name).getD "") = "NTS 2"))

/-- The body of the matched-channel branch (now_playing.py lines 168-194):
with a current track, artist/title from it; otherwise the location (or NTS)
as artist and the broadcast title as title. -/
def track_from_broadcast (b : NtsBroadcast) : TrackInfo :=
  match b.current_track with
  | some tr =>
    ⟨(tr.artist).getD "Unknown", (tr.title).getD "Unknown",
      (b.broadcast_title).getD "Unknown Show", some ((b.location).getD ""), none, "nts_api"⟩
  | none =>
    ⟨(if (b.location).getD "" ≠ "" then (b.location).getD "" else "NTS"),
      (b.broadcast_title).getD "Unknown Show",
      (b.broadcast_title).getD "Unknown Show", some ((b.location).getD ""), none, "nts_api"⟩

/-- The channel loop of _get_track_from_nts (now_playing.py lines 161-194):
first matching channel with a truthy 'now' wins; a matching channel without
one falls through to the next (continue). -/
def get_track_from_nts_list (stream_name : String) : List NtsChannel → Option TrackInfo
  | [] => none
  | ch :: rest =>
    if channel_matches stream_name ch then
      match ch.now with
      | none => get_track_from_nts_list stream_name rest
      | some b => some (track_from_broadcast b)
    else get_track_from_nts_list stream_name rest

/-- now_playing.py lines 146-198 (_get_track_from_nts). -/
def get_track_from_nts (stream_name : String) (nts_data : Option NtsData) : Option TrackInfo :=
  match nts_data with
  | none => none
  | some d =>
    match d.results with
    | none => none
    | some chans => get_track_from_nts_list stream_name chans

/-- The format.tags object returned by a successful ffprobe run; none fields
are missing tags. -/
structure IcyTags where
  icy_title : Option String
  title : Option String
  icy_name : Option String
  icy_genre : Option String
deriving DecidableEq

/-- Python s.split(' - ', 1) restricted to its first two parts: splits a
character list at the FIRST occurrence of space-hyphen-space, or none when
the separator does not occur (which is exactly when ' - ' in s is False). -/
def splitFirstSep : List Char → Option (List Char × List Char)
  | ' ' :: '-' :: ' ' :: rest => some ([], rest)
  | c :: rest =>
    match splitFirstSep rest with
    | some (a, b) => some (c :: a, b)
    | none => none
  | [] => none

/-- Python str.strip() on a character list (leading and trailing whitespace
removed; the tags involved are ASCII). -/
def pyStrip (s : List Char) : List Char :=
  List.reverse (List.dropWhile Char.isWhitespace
    (List.reverse (List.dropWhile Char.isWhitespace s)))

/-- now_playing.py lines 200-263 (_fetch_icy_metadata).  The probe argument
is the ffprobe oracle: none when ffprobe fails, times out, exits non-zero or
yields unparsable JSON (all those paths return None); otherwise the
format.tags object.  icy_title falls back to the generic title tag only when
the icy-title KEY is absent, and an empty title yields None. -/
def fetch_icy_metadata (probe : Option IcyTags) : Option TrackInfo :=
  match probe with
  | none => none
  | some tags =>
    let icy_title := match tags.icy_title with
      | some v => v
      | none => (tags.title).getD ""
    let icy_name := (tags.icy_name).getD ""
    let icy_genre := (tags.icy_genre).getD ""
    if icy_title = "" then none
    else
      match splitFirstSep (String.toList icy_title) with
      | some (a, b) =>
        some ⟨String.mk (pyStrip a), String.mk (pyStrip b),
          (if icy_name ≠ "" then icy_name else "Live Stream"), none, some icy_genre, "icy_metadata"⟩
      | none =>
        some ⟨(if icy_name ≠ "" then icy_name else "Unknown"), icy_title,
          (if icy_name ≠ "" then icy_name else "Live Stream"), none, some icy_genre, "icy_metadata"⟩

/-- The notification-throttle state of the fetcher: whether a toast callback
was wired in, and when the last API-error notification was emitted.  The
Python flag api_error_shown is set exactly when a notification fires and
reset by a threading.Timer 30 seconds later, so at time now it is raised
exactly when a notification was emitted at some t with now < t + 30. -/
structure NotifyState where
  hasCallback : Bool
  lastNotified : Option Nat
deriving DecidableEq

/-- The value of the api_error_shown flag at the given time. -/
def api_error_shown (ns : NotifyState) (now : Nat) : Bool :=
  match ns.lastNotified with
  | none => false
  | some t => now < t + 30

/-- Outcome oracle for the HTTP GET in _fetch_nts_api: success with a parsed
payload, a requests.exceptions.RequestException (network error, non-success
raise_for_status, malformed payload wrapped by response.json), or any other
exception (caught silently by the second except). -/
inductive FetchOutcome where
  | ok (d : NtsData)
  | requestError
  | otherError

/-- now_playing.py lines 122-144 (_fetch_nts_api) at time now: returns the
updated throttle state, the payload if any, and the list of notifications
emitted during the call. -/
def fetch_nts_api (ns : NotifyState) (now : Nat) (o : FetchOutcome) :
    NotifyState × Option NtsData × List String :=
  match o with
  | FetchOutcome.ok d => (ns, some d, [])
  | FetchOutcome.requestError =>
    if !(api_error_shown ns now) && ns.hasCallback then
      (⟨ns.hasCallback, some now⟩, none, ["API error - continuing"])
    else (ns, none, [])
  | FetchOutcome.otherError => (ns, none, [])

/-- Per-cycle oracles of _update_all_streams: whether the body of the
per-stream try block raises for a given stream name, and what the ffprobe of
a given url returns. -/
structure UpdateOracle where
  raises : String → Bool
  icy : String → Option IcyTags

/-- The track-resolution chain of the per-stream try block (now_playing.py
lines 95-101): NTS first; if it yields nothing or an Unknown artist, probe
ICY and take its result when it has one. -/
def resolved_track (stream_name url : String) (nts_data : Option NtsData)
    (oracle : UpdateOracle) : Option TrackInfo :=
  match get_track_from_nts stream_name nts_data with
  | none => fetch_icy_metadata (oracle.icy url)
  | some t =>
    if t.artist = "Unknown" then
      match fetch_icy_metadata (oracle.icy url) with
      | some i => some i
      | none => some t
    else some t

/-- The source field written with an entry (now_playing.py line 107):
track_info.get('source', 'unknown') if track_info else 'unavailable'; every
track dict the code builds carries a source key. -/
def entry_source (t : Option TrackInfo) : String :=
  match t with
  | some ti => ti.source
  | none => "unavailable"

/-- One iteration of the per-stream loop of _update_all_streams
(now_playing.py lines 92-120) over (heap, cache), for the stream (name, url).
Normal path: resolve a track, allocate the fresh track dict, overwrite the
entry.  Exception path: keep an existing entry but set its source to error in
place; without an existing entry, write a fresh error entry around an unknown
track.  ts is the datetime.now().isoformat() oracle for this cycle. -/
def update_stream (nts_data : Option NtsData) (oracle : UpdateOracle) (ts : String)
    (acc : TrackHeap × NPCache) (st : String × String) : TrackHeap × NPCache :=
  if oracle.raises st.1 then
    match lookupCache acc.2 st.1 with
    | some _ => (acc.1, markError acc.2 st.1)
    | none =>
      (acc.1 ++ [get_unknown_track],
        setCache acc.2 st.1 ⟨heapLen acc.1, some ts, "error"⟩)
  else
    (acc.1 ++ [(resolved_track st.1 st.2 nts_data oracle).getD get_unknown_track],
      setCache acc.2 st.1
        ⟨heapLen acc.1, some ts, entry_source (resolved_track st.1 st.2 nts_data oracle)⟩)

/-- now_playing.py lines 87-120 (_update_all_streams), with the payload of
the initial _fetch_nts_api call passed in: the per-stream loop folded over
the configured streams (name, url pairs) in order. -/
def update_all_streams (streams : List (String × String)) (nts_data : Option NtsData)
    (oracle : UpdateOracle) (ts : String) (h : TrackHeap) (c : NPCache) :
    TrackHeap × NPCache :=
  List.foldl (update_stream nts_data oracle ts) (h, c) streams

/-- The shallow dict copy info.copy() applied to an entry: a fresh entry
object with the same field values, in particular the same track_info
address. -/
def copy_entry (e : CacheEntry) : CacheEntry :=
  ⟨e.track_info, e.last_updated, e.source⟩

/-- now_playing.py lines 299-307 (get_all_now_playing): a fresh dict holding
a shallow copy of every entry. -/
def get_all_now_playing (c : NPCache) : NPCache :=
  List.map (fun p => (p.1, copy_entry p.2)) c

/-- now_playing.py lines 279-297 (get_now_playing), observed at the value
level: for a cached name, the entry copy with its shared track object
dereferenced; for an uncached name, the synthesized not-yet-cached record
around a fresh unknown track. -/
def get_now_playing (h : TrackHeap) (c : NPCache) (name : String) : EntryView :=
  match lookupCache c name with
  | some e => ⟨(heapGet h e.track_info).getD get_unknown_track, e.last_updated, e.source⟩
  | none => ⟨get_unknown_track, none, "not_cached"⟩

/-- Well-formedness of a cache against a heap: every entry address is live.
Every address the fetcher writes is freshly allocated, so this holds for all
reachable states. -/
def cacheWF (h : TrackHeap) (c : NPCache) : Prop :=
  ∀ p ∈ c, p.2.track_info < heapLen h

instance (h : TrackHeap) (c : NPCache) : Decidable (cacheWF h c) := by
  unfold cacheWF; infer_instance

/-- What a full, exception-free update of one stream leaves observable for
it: the resolved track with the cycle timestamp, or the unknown track with
source unavailable when neither source yielded one. -/
def expected_entry (stream_name url : String) (nts_data : Option NtsData)
    (oracle : UpdateOracle) (ts : String) : EntryView :=
  match resolved_track stream_name url nts_data oracle with
  | some t => ⟨t, some ts, t.source⟩
  | none => ⟨get_unknown_track, some ts, "unavailable"⟩

end NowPlayingFetcher

/-- The two-stream scenario of spec section 8: initial supervisor state for
streams NTS1/urlA and NTS2/urlB. -/
def c1_s0 : StreamManager.SMState :=
  StreamManager.initState [⟨"NTS1", "urlA"⟩, ⟨"NTS2", "urlB"⟩]

/-- The scenario state after a successful play(0). -/
def c1_s1 : StreamManager.SMState :=
  (StreamManager.play c1_s0 0 StreamManager.StopOutcome.graceful true).1

/-- The intermediate state inside play(1), after its embedded stop() has
terminated the first decoder and before the second is spawned. -/
def c1_mid : StreamManager.SMState :=
  (StreamManager.stop c1_s1 StreamManager.StopOutcome.graceful).1

section StreamManagerLemmas

open StreamManager

theorem smInv_stop (s : SMState) (o : StopOutcome) (h : smInv s) : smInv (stop s o).1 := by
  unfold stop
  cases hp : s.current_process with
  | none => exact h
  | some p => simp [smInv]

theorem stop_streams (s : SMState) (o : StopOutcome) : (stop s o).1.streams = s.streams := by
  unfold stop
  cases s.current_process <;> rfl

theorem stop_clears (s : SMState) (o : StopOutcome) (h : s.current_process ≠ none) :
    (stop s o).1.current_process = none ∧ (stop s o).1.current_stream_id = none := by
  unfold stop
  cases hp : s.current_process with
  | none => exact absurd hp h
  | some p => exact ⟨rfl, rfl⟩

theorem smInv_play (s : SMState) (id : Nat) (o : StopOutcome) (spawnOk : Bool)
    (h : smInv s) : smInv (play s id o spawnOk).1 := by
  unfold play
  by_cases hid : id < s.streams.length
  · simp only [hid, if_true]
    cases hp : s.current_process with
    | some p =>
      cases spawnOk with
      | true => simp [launch, smInv, stop, hp]
      | false => simp [smInv, stop, hp]
    | none =>
      cases spawnOk with
      | true => simp [launch, smInv]
      | false => simpa using h
  · simpa [hid] using h

theorem smInv_switch (s : SMState) (id : Nat) (o1 o2 : StopOutcome) (spawnOk : Bool)
    (h : smInv s) : smInv (switch s id o1 o2 spawnOk).1 := by
  unfold switch
  by_cases hid : id < s.streams.length
  · by_cases hc : s.current_stream_id = some id
    · simpa [hid, hc] using h
    · simpa [hid, hc] using smInv_play _ id o2 spawnOk (smInv_stop s o1 h)
  · simpa [hid] using h

theorem smInv_status (s : SMState) (a : Bool) (h : smInv s) : smInv (status s a).1 := by
  unfold status
  cases hp : s.current_process with
  | none => exact h
  | some p =>
    cases a with
    | true => exact h
    | false => simp [smInv]

end StreamManagerLemmas

section StreamManagerTheorems

open StreamManager

theorem status_after_launch (s : SMState) (id : Nat) (hid : id < s.streams.length) :
    (status (launch s id) true).2.current_stream_id = some id := by
  cases hg : s.streams.get? id with
  | none =>
    rw [List.get?_eq_none] at hg
    omega
  | some st =>
    rw [List.get?_eq_getElem?] at hg
    simp [status, launch, mkStatusInfo, hg]

/-- C1: for every sequence of Process Supervisor operations (play, stop,
switch, status) the PlaybackState invariant is preserved: the single process
handle and current_stream_id are non-null together (so at most one decoder
handle is ever held, and never without its id).  In the two-stream scenario
play(0) then play(1), the handle goes some 0, then none at the intermediate
point where play(1)'s embedded stop() has cleared it, then some 1 — the
invariant holds at every step of the transition and at no instant are two
handles held (the state has exactly one handle field, of Option type). -/
theorem C1_at_most_one_handle_invariant :
    (∀ s o, smInv s → smInv (stop s o).1) ∧
    (∀ s id o sp, smInv s → smInv (play s id o sp).1) ∧
    (∀ s id o1 o2 sp, smInv s → smInv (switch s id o1 o2 sp).1) ∧
    (∀ s a, smInv s → smInv (status s a).1) ∧
    (c1_s0.current_process = none ∧ smInv c1_s0 ∧
      (play c1_s0 0 StopOutcome.graceful true).2 = true ∧
      c1_s1.current_process = some 0 ∧ c1_s1.current_stream_id = some 0 ∧ smInv c1_s1 ∧
      c1_mid.current_process = none ∧ c1_mid.current_stream_id = none ∧ smInv c1_mid ∧
      play c1_s1 1 StopOutcome.graceful true = (launch c1_mid 1, true) ∧
      (launch c1_mid 1).current_process = some 1 ∧
      (launch c1_mid 1).current_stream_id = some 1 ∧ smInv (launch c1_mid 1)) :=
  ⟨smInv_stop, smInv_play, smInv_switch, smInv_status, by decide⟩

theorem C1_at_most_one_handle_invariant_witness :
    smInv c1_s0 ∧
    smInv (play c1_s0 0 StopOutcome.graceful true).1 ∧
    smInv (stop c1_s1 StopOutcome.graceful).1 ∧
    smInv (switch c1_s1 1 StopOutcome.graceful StopOutcome.graceful true).1 ∧
    smInv (status c1_s1 true).1 :=
  ⟨by decide,
    C1_at_most_one_handle_invariant.2.1 c1_s0 0 StopOutcome.graceful true (by decide),
    C1_at_most_one_handle_invariant.1 c1_s1 StopOutcome.graceful (by decide),
    C1_at_most_one_handle_invariant.2.2.1 c1_s1 1 StopOutcome.graceful StopOutcome.graceful true
      (by decide),
    C1_at_most_one_handle_invariant.2.2.2.1 c1_s1 true (by decide)⟩

/-- C2: whenever play(id) returns True, an immediately subsequent status()
call (the decoder still running, poll oracle true) reports
current_stream_id = id; and for an unknown id, play returns False and the
state is unchanged. -/
theorem C2_play_success_status (s : SMState) (id : Nat) (o : StopOutcome) (sp : Bool) :
    ((play s id o sp).2 = true →
      (status (play s id o sp).1 true).2.current_stream_id = some id) ∧
    (¬ id < s.streams.length → play s id o sp = (s, false)) := by
  constructor
  · intro h
    by_cases hid : id < s.streams.length
    · cases hp : s.current_process with
      | some p =>
        cases sp with
        | false => simp [play, hid, hp] at h
        | true =>
          have hroute : (play s id o true).1 = launch (stop s o).1 id := by
            simp [play, hid, hp]
          rw [hroute]
          exact status_after_launch _ id (by rw [stop_streams]; exact hid)
      | none =>
        cases sp with
        | false => simp [play, hid, hp] at h
        | true =>
          have hroute : (play s id o true).1 = launch s id := by
            simp [play, hid, hp]
          rw [hroute]
          exact status_after_launch s id hid
    · simp [play, hid] at h
  · intro h
    simp [play, h]

theorem C2_play_success_status_witness :
    ((play c1_s0 0 StopOutcome.graceful true).2 = true) ∧
    (status (play c1_s0 0 StopOutcome.graceful true).1 true).2.current_stream_id = some 0 ∧
    (¬ 5 < c1_s0.streams.length) ∧
    play c1_s0 5 StopOutcome.graceful true = (c1_s0, false) :=
  ⟨by decide,
    (C2_play_success_status c1_s0 0 StopOutcome.graceful true).1 (by decide),
    by decide,
    (C2_play_success_status c1_s0 5 StopOutcome.graceful true).2 (by decide)⟩

/-- C3: stop() with no active process is a no-op returning False; with an
active process the handle and current_stream_id are cleared on every
teardown path (graceful, forced kill, unexpected exception), after which
status() reports is_playing = false and no current_stream_id whatever the
poll oracle says. -/
theorem C3_stop_clears_state (s : SMState) (o : StopOutcome) :
    (s.current_process = none → stop s o = (s, false)) ∧
    (s.current_process ≠ none →
      (stop s o).1.current_process = none ∧
      (stop s o).1.current_stream_id = none ∧
      ∀ a : Bool,
        (status (stop s o).1 a).2.is_playing = false ∧
        (status (stop s o).1 a).2.current_stream_id = none) := by
  constructor
  · intro h
    simp [stop, h]
  · intro h
    cases hp : s.current_process with
    | none => exact absurd hp h
    | some p =>
      refine ⟨by simp [stop, hp], by simp [stop, hp], ?_⟩
      intro a
      constructor <;> simp [stop, hp, status, mkStatusInfo]

theorem C3_stop_clears_state_witness :
    stop c1_s0 StopOutcome.graceful = (c1_s0, false) ∧
    ((stop c1_s1 StopOutcome.raised).1.current_process = none ∧
      (stop c1_s1 StopOutcome.raised).1.current_stream_id = none ∧
      ∀ a : Bool,
        (status (stop c1_s1 StopOutcome.raised).1 a).2.is_playing = false ∧
        (status (stop c1_s1 StopOutcome.raised).1 a).2.current_stream_id = none) :=
  ⟨(C3_stop_clears_state c1_s0 StopOutcome.graceful).1 (by decide),
    (C3_stop_clears_state c1_s1 StopOutcome.raised).2 (by decide)⟩

/-- C7: for a known id, switch(id) with id already active returns True and
leaves the state — in particular the process handle and current_stream_id —
exactly as it was, spawning nothing; with a different id it is literally
stop() followed by play(id), returning play's result. -/
theorem C7_switch_same_stream_noop (s : SMState) (id : Nat) (o1 o2 : StopOutcome) (sp : Bool)
    (hid : id < s.streams.length) :
    (s.current_stream_id = some id → switch s id o1 o2 sp = (s, true)) ∧
    (s.current_stream_id ≠ some id →
      switch s id o1 o2 sp = play (stop s o1).1 id o2 sp) := by
  constructor
  · intro h
    simp [switch, hid, h]
  · intro h
    simp [switch, hid, h]

theorem C7_switch_same_stream_noop_witness :
    switch c1_s1 0 StopOutcome.graceful StopOutcome.graceful true = (c1_s1, true) ∧
    switch c1_s1 1 StopOutcome.graceful StopOutcome.graceful true =
      play (stop c1_s1 StopOutcome.graceful).1 1 StopOutcome.graceful true :=
  ⟨(C7_switch_same_stream_noop c1_s1 0 StopOutcome.graceful StopOutcome.graceful true
      (by decide)).1 (by decide),
    (C7_switch_same_stream_noop c1_s1 1 StopOutcome.graceful StopOutcome.graceful true
      (by decide)).2 (by decide)⟩

/-- C10: if a stream is playing and play(id) for a valid id fails at launch
(spawn oracle false: ffplay missing or Popen raising), the previous stream is
not restored: play returns False, both the handle and current_stream_id end
null (the active stream was already stopped before the launch attempt), and
status() then reports is_playing = false. -/
theorem C10_failed_launch_not_restored (s : SMState) (id : Nat) (o : StopOutcome)
    (hplay : s.current_process ≠ none) (hid : id < s.streams.length) :
    (play s id o false).2 = false ∧
    (play s id o false).1.current_process = none ∧
    (play s id o false).1.current_stream_id = none ∧
    ∀ a : Bool, (status (play s id o false).1 a).2.is_playing = false := by
  cases hp : s.current_process with
  | none => exact absurd hp hplay
  | some p =>
    have h1 : play s id o false = ((stop s o).1, false) := by
      simp [play, hid, hp]
    rw [h1]
    refine ⟨rfl, by simp [stop, hp], by simp [stop, hp], ?_⟩
    intro a
    simp [stop, hp, status, mkStatusInfo]

theorem C10_failed_launch_not_restored_witness :
    (play c1_s1 1 StopOutcome.graceful false).2 = false ∧
    (play c1_s1 1 StopOutcome.graceful false).1.current_process = none ∧
    (play c1_s1 1 StopOutcome.graceful false).1.current_stream_id = none ∧
    ∀ a : Bool, (status (play c1_s1 1 StopOutcome.graceful false).1 a).2.is_playing = false :=
  C10_failed_launch_not_restored c1_s1 1 StopOutcome.graceful (by decide) (by decide)

end StreamManagerTheorems

section NowPlayingLemmas

open NowPlayingFetcher

theorem copy_entry_id (e : CacheEntry) : copy_entry e = e := rfl

theorem lookupCache_get_all (c : NPCache) (k : String) :
    lookupCache (get_all_now_playing c) k = lookupCache c k := by
  induction c with
  | nil => rfl
  | cons p rest ih =>
    simp only [get_all_now_playing, List.map_cons] at ih ⊢
    by_cases h : p.1 = k
    · simp [lookupCache, copy_entry_id, h]
    · simp only [lookupCache, h, if_false]
      exact ih

theorem heapGet_heapSet_self (h : TrackHeap) (a : Nat) (t : TrackInfo) (ha : a < heapLen h) :
    heapGet (heapSet h a t) a = some t := by
  unfold heapGet heapSet heapLen at *
  induction h generalizing a with
  | nil => simp at ha
  | cons x rest ih =>
    cases a with
    | zero => rfl
    | succ n =>
      simp only [List.set, List.get?]
      exact ih n (by simpa using ha)

theorem lookupCache_mem (c : NPCache) (k : String) (e : CacheEntry)
    (h : lookupCache c k = some e) : (k, e) ∈ c := by
  induction c with
  | nil => simp [lookupCache] at h
  | cons p rest ih =>
    by_cases hp : p.1 = k
    · simp only [lookupCache, hp, if_true, Option.some.injEq] at h
      subst h
      rw [← hp]
      exact List.mem_cons_self _ _
    · simp only [lookupCache, hp, if_false] at h
      exact List.mem_cons_of_mem _ (ih h)

theorem lookupCache_setCache_self (c : NPCache) (k : String) (v : CacheEntry) :
    lookupCache (setCache c k v) k = some v := by
  induction c with
  | nil => simp [setCache, lookupCache]
  | cons p rest ih =>
    by_cases h : p.1 = k
    · simp [setCache, lookupCache, h]
    · simp only [setCache, h, if_false, lookupCache]
      exact ih

theorem lookupCache_setCache_other (c : NPCache) (k : String) (v : CacheEntry) (k' : String)
    (h : k' ≠ k) : lookupCache (setCache c k v) k' = lookupCache c k' := by
  induction c with
  | nil => simp [setCache, lookupCache, Ne.symm h]
  | cons p rest ih =>
    by_cases hp : p.1 = k
    · simp [setCache, lookupCache, hp, Ne.symm h]
    · simp only [setCache, hp, if_false, lookupCache]
      by_cases hk : p.1 = k'
      · simp [hk]
      · simp only [hk, if_false]
        exact ih

theorem lookupCache_markError_self (c : NPCache) (k : String) :
    lookupCache (markError c k) k =
      Option.map (fun e => (⟨e.track_info, e.last_updated, "error"⟩ : CacheEntry))
        (lookupCache c k) := by
  induction c with
  | nil => rfl
  | cons p rest ih =>
    by_cases hp : p.1 = k
    · simp [markError, lookupCache, hp]
    · simp only [markError, hp, if_false, lookupCache]
      exact ih

theorem lookupCache_markError_other (c : NPCache) (k k' : String) (h : k' ≠ k) :
    lookupCache (markError c k) k' = lookupCache c k' := by
  induction c with
  | nil => rfl
  | cons p rest ih =>
    by_cases hp : p.1 = k
    · simp [markError, lookupCache, hp, Ne.symm h]
    · simp only [markError, hp, if_false, lookupCache]
      by_cases hk : p.1 = k'
      · simp [hk]
      · simp only [hk, if_false]
        exact ih

end NowPlayingLemmas

section NowPlayingTheorems

open NowPlayingFetcher

/-- C9: get_now_playing for a name that has never been updated returns the
synthesized not-yet-cached record: a full TrackInfo with artist Unknown,
title Unknown and the non-empty show value Live Stream — never a null or
empty structure. -/
theorem C9_uncached_unknown_track (h : TrackHeap) (c : NPCache) (name : String)
    (hnc : lookupCache c name = none) :
    get_now_playing h c name = ⟨get_unknown_track, none, "not_cached"⟩ ∧
    (get_now_playing h c name).track_info.artist = "Unknown" ∧
    (get_now_playing h c name).track_info.title = "Unknown" ∧
    (get_now_playing h c name).track_info.show' = "Live Stream" ∧
    (get_now_playing h c name).track_info.show' ≠ "" := by
  have hg : get_now_playing h c name = ⟨get_unknown_track, none, "not_cached"⟩ := by
    simp [get_now_playing, hnc]
  rw [hg]
  exact ⟨rfl, rfl, rfl, rfl, by decide⟩

theorem C9_uncached_unknown_track_witness :
    get_now_playing [] [] "NTS1" = ⟨get_unknown_track, none, "not_cached"⟩ ∧
    (get_now_playing [] [] "NTS1").track_info.artist = "Unknown" ∧
    (get_now_playing [] [] "NTS1").track_info.title = "Unknown" ∧
    (get_now_playing [] [] "NTS1").track_info.show' = "Live Stream" ∧
    (get_now_playing [] [] "NTS1").track_info.show' ≠ "" :=
  C9_uncached_unknown_track [] [] "NTS1" rfl

/-- C8 counterexample: the claim says that when the separator is absent the
station-name tag is used as artist.  On the probe payload with an icy-name
tag that is present but empty and icy-title Hello (no separator), the code
(now_playing.py line 244: artist = icy_name if icy_name else 'Unknown')
produces artist Unknown, not the station-name tag value (the empty string),
so the claim as stated fails at this input. -/
theorem C8_icy_split_counterexample :
    fetch_icy_metadata (some ⟨some "Hello", none, some "", none⟩) =
      some ⟨"Unknown", "Hello", "Live Stream", none, some "", "icy_metadata"⟩ ∧
    ("Unknown" : String) ≠ "" := by
  constructor
  · decide
  · decide

/-- C8 amended: when the combined title tag contains the separator, the
TrackInfo splits it at the FIRST occurrence into artist (the part before,
whitespace-stripped) and title (the part after, stripped) — in particular
Burial - Archangel yields artist Burial and title Archangel, and
A - B - C splits at the first separator only; when the separator is absent,
the station-name tag is used as artist if it is non-empty (otherwise the
artist is Unknown) and the raw title tag as title. -/
theorem C8_icy_title_split (tags : IcyTags) (icy_title icy_name : String)
    (ht : icy_title = (match tags.icy_title with
      | some v => v
      | none => (tags.title).getD ""))
    (hn : icy_name = (tags.icy_name).getD "")
    (hne : icy_title ≠ "") :
    (∀ a b, splitFirstSep (String.toList icy_title) = some (a, b) →
      fetch_icy_metadata (some tags) =
        some ⟨String.mk (pyStrip a), String.mk (pyStrip b),
          (if icy_name ≠ "" then icy_name else "Live Stream"), none,
          some ((tags.icy_genre).getD ""), "icy_metadata"⟩) ∧
    (splitFirstSep (String.toList icy_title) = none →
      fetch_icy_metadata (some tags) =
        some ⟨(if icy_name ≠ "" then icy_name else "Unknown"), icy_title,
          (if icy_name ≠ "" then icy_name else "Live Stream"), none,
          some ((tags.icy_genre).getD ""), "icy_metadata"⟩) ∧
    fetch_icy_metadata (some ⟨some "Burial - Archangel", none, some "NTS", none⟩) =
      some ⟨"Burial", "Archangel", "NTS", none, some "", "icy_metadata"⟩ ∧
    fetch_icy_metadata (some ⟨some "A - B - C", none, some "X", none⟩) =
      some ⟨"A", "B - C", "X", none, some "", "icy_metadata"⟩ := by
  subst ht hn
  refine ⟨?_, ?_, by decide, by decide⟩
  · intro a b hsp
    have hsp' : splitFirstSep (String.data (match tags.icy_title with
        | some v => v
        | none => (tags.title).getD "")) = some (a, b) := hsp
    simp [fetch_icy_metadata, hne, hsp']
  · intro hsp
    have hsp' : splitFirstSep (String.data (match tags.icy_title with
        | some v => v
        | none => (tags.title).getD "")) = none := hsp
    simp [fetch_icy_metadata, hne, hsp']

theorem C8_icy_title_split_witness :
    (("Burial - Archangel" : String) ≠ "") ∧
    fetch_icy_metadata (some ⟨some "Burial - Archangel", none, some "NTS", none⟩) =
      some ⟨"Burial", "Archangel", "NTS", none, some "", "icy_metadata"⟩ :=
  ⟨by decide,
    (C8_icy_title_split ⟨some "Burial - Archangel", none, some "NTS", none⟩
      "Burial - Archangel" "NTS" rfl rfl (by decide)).2.2.1⟩

/-- C4: with a Notifier wired in, a primary-fetch network failure emits no
notification when one was already emitted within the last 30 seconds, and
exactly one otherwise; after that notification the throttle suppresses a
second failure strictly within 30 seconds (so two failures 10 seconds apart
yield exactly one notification) and re-opens at 30 seconds, when a failure
notifies again. -/
theorem C4_notification_throttle (ns : NotifyState) (now now2 : Nat)
    (hcb : ns.hasCallback = true) :
    (api_error_shown ns now = true →
      (fetch_nts_api ns now FetchOutcome.requestError).2.2 = []) ∧
    (api_error_shown ns now = false →
      (fetch_nts_api ns now FetchOutcome.requestError).2.2 = ["API error - continuing"] ∧
      (fetch_nts_api ns now FetchOutcome.requestError).1.lastNotified = some now ∧
      (now2 < now + 30 →
        (fetch_nts_api (fetch_nts_api ns now FetchOutcome.requestError).1 now2
          FetchOutcome.requestError).2.2 = []) ∧
      (now + 30 ≤ now2 →
        (fetch_nts_api (fetch_nts_api ns now FetchOutcome.requestError).1 now2
          FetchOutcome.requestError).2.2 = ["API error - continuing"])) := by
  constructor
  · intro h
    simp [fetch_nts_api, h]
  · intro h
    have h1 : fetch_nts_api ns now FetchOutcome.requestError =
        (⟨true, some now⟩, none, ["API error - continuing"]) := by
      simp [fetch_nts_api, h, hcb]
    rw [h1]
    refine ⟨rfl, rfl, ?_, ?_⟩
    · intro hlt
      have hs : api_error_shown ⟨true, some now⟩ now2 = true := by
        simp [api_error_shown]
        omega
      simp [fetch_nts_api, hs]
    · intro hge
      have hs : api_error_shown ⟨true, some now⟩ now2 = false := by
        simp [api_error_shown]
        omega
      simp [fetch_nts_api, hs]

theorem C4_notification_throttle_witness :
    (fetch_nts_api ⟨true, none⟩ 0 FetchOutcome.requestError).2.2 =
      ["API error - continuing"] ∧
    (fetch_nts_api (fetch_nts_api ⟨true, none⟩ 0 FetchOutcome.requestError).1 10
      FetchOutcome.requestError).2.2 = ([] : List String) ∧
    (fetch_nts_api (fetch_nts_api ⟨true, none⟩ 0 FetchOutcome.requestError).1 30
      FetchOutcome.requestError).2.2 = ["API error - continuing"] :=
  ⟨((C4_notification_throttle ⟨true, none⟩ 0 10 rfl).2 (by decide)).1,
    ((C4_notification_throttle ⟨true, none⟩ 0 10 rfl).2 (by decide)).2.2.1 (by decide),
    ((C4_notification_throttle ⟨true, none⟩ 0 30 rfl).2 (by decide)).2.2.2 (by decide)⟩

/-- C5 counterexample: the claim says mutating the returned map including
the values it contains never changes subsequent results.  But
get_all_now_playing copies each entry dict shallowly (info.copy()), so the
returned entry for NTS1 holds the same track_info object (address 0) as the
internal cache; mutating that object through the returned reference changes
what a subsequent get_now_playing("NTS1") observes. -/
theorem C5_shallow_copy_counterexample :
    get_all_now_playing [("NTS1", ⟨0, some "2024-01-01T00:00:00", "nts_api"⟩)] =
      [("NTS1", ⟨0, some "2024-01-01T00:00:00", "nts_api"⟩)] ∧
    get_now_playing
        (heapSet [⟨"Four Tet", "Looking At Your Pager", "Show", none, none, "nts_api"⟩] 0
          ⟨"Mutated", "Mutated", "Show", none, none, "nts_api"⟩)
        [("NTS1", ⟨0, some "2024-01-01T00:00:00", "nts_api"⟩)] "NTS1" ≠
      get_now_playing [⟨"Four Tet", "Looking At Your Pager", "Show", none, none, "nts_api"⟩]
        [("NTS1", ⟨0, some "2024-01-01T00:00:00", "nts_api"⟩)] "NTS1" := by
  constructor
  · decide
  · decide

/-- C5 amended: get_all_now_playing returns per-entry shallow copies — each
returned entry is value-equal to the internal cache entry (so rebinding keys
of the returned map or fields of a returned entry cannot reach the cache,
which the caller holds only through these copies), but it shares the nested
track_info object with the cache, so mutating that object does change the
results of subsequent queries. -/
theorem C5_get_all_shallow_copy (c : NPCache) (name : String) (e : CacheEntry)
    (hl : lookupCache (get_all_now_playing c) name = some e) :
    lookupCache c name = some e ∧
    ∀ (h : TrackHeap) (t' : TrackInfo), e.track_info < heapLen h →
      (get_now_playing (heapSet h e.track_info t') c name).track_info = t' := by
  have hc : lookupCache c name = some e := by
    rw [← lookupCache_get_all]
    exact hl
  refine ⟨hc, ?_⟩
  intro h t' hlt
  simp [get_now_playing, hc, heapGet_heapSet_self h e.track_info t' hlt]

theorem C5_get_all_shallow_copy_witness :
    lookupCache [("NTS1", (⟨0, some "2024-01-01T00:00:00", "nts_api"⟩ : CacheEntry))] "NTS1" =
      some ⟨0, some "2024-01-01T00:00:00", "nts_api"⟩ ∧
    (get_now_playing
        (heapSet [⟨"Four Tet", "Looking At Your Pager", "Show", none, none, "nts_api"⟩] 0
          ⟨"Mutated", "Mutated", "Show", none, none, "nts_api"⟩)
        [("NTS1", ⟨0, some "2024-01-01T00:00:00", "nts_api"⟩)] "NTS1").track_info =
      ⟨"Mutated", "Mutated", "Show", none, none, "nts_api"⟩ :=
  ⟨(C5_get_all_shallow_copy [("NTS1", ⟨0, some "2024-01-01T00:00:00", "nts_api"⟩)] "NTS1"
      ⟨0, some "2024-01-01T00:00:00", "nts_api"⟩ (by decide)).1,
    (C5_get_all_shallow_copy [("NTS1", ⟨0, some "2024-01-01T00:00:00", "nts_api"⟩)] "NTS1"
      ⟨0, some "2024-01-01T00:00:00", "nts_api"⟩ (by decide)).2
      [⟨"Four Tet", "Looking At Your Pager", "Show", none, none, "nts_api"⟩]
      ⟨"Mutated", "Mutated", "Show", none, none, "nts_api"⟩ (by decide)⟩

end NowPlayingTheorems

section UpdateCycleLemmas

open NowPlayingFetcher

theorem heapGet_append (h l : TrackHeap) (a : Nat) (ha : a < heapLen h) :
    heapGet (h ++ l) a = heapGet h a := by
  unfold heapGet heapLen at *
  exact List.get?_append ha

theorem update_stream_heap_ext (nd : Option NtsData) (oracle : UpdateOracle) (ts : String)
    (acc : TrackHeap × NPCache) (st : String × String) :
    ∃ l, (update_stream nd oracle ts acc st).1 = acc.1 ++ l := by
  cases hr : oracle.raises st.1 with
  | true =>
    cases hl : lookupCache acc.2 st.1 with
    | some e =>
      refine ⟨[], ?_⟩
      simp [update_stream, hr, hl]
    | none =>
      refine ⟨[get_unknown_track], ?_⟩
      simp [update_stream, hr, hl]
  | false =>
    refine ⟨[(resolved_track st.1 st.2 nd oracle).getD get_unknown_track], ?_⟩
    simp [update_stream, hr]

theorem update_all_heap_ext (streams : List (String × String)) (nd : Option NtsData)
    (oracle : UpdateOracle) (ts : String) :
    ∀ (h : TrackHeap) (c : NPCache),
      ∃ l, (update_all_streams streams nd oracle ts h c).1 = h ++ l := by
  induction streams with
  | nil =>
    intro h c
    exact ⟨[], by simp [update_all_streams]⟩
  | cons st rest ih =>
    intro h c
    obtain ⟨l1, hl1⟩ := update_stream_heap_ext nd oracle ts (h, c) st
    obtain ⟨l2, hl2⟩ := ih (update_stream nd oracle ts (h, c) st).1
      (update_stream nd oracle ts (h, c) st).2
    refine ⟨l1 ++ l2, ?_⟩
    have hgoal : (update_all_streams (st :: rest) nd oracle ts h c).1 =
        (update_stream nd oracle ts (h, c) st).1 ++ l2 := hl2
    rw [hgoal, hl1, List.append_assoc]

theorem update_stream_lookup_other (nd : Option NtsData) (oracle : UpdateOracle) (ts : String)
    (acc : TrackHeap × NPCache) (st : String × String) (name : String) (hne : name ≠ st.1) :
    lookupCache (update_stream nd oracle ts acc st).2 name = lookupCache acc.2 name := by
  cases hr : oracle.raises st.1 with
  | true =>
    cases hl : lookupCache acc.2 st.1 with
    | some e =>
      have h2 : (update_stream nd oracle ts acc st).2 = markError acc.2 st.1 := by
        simp [update_stream, hr, hl]
      rw [h2]
      exact lookupCache_markError_other acc.2 st.1 name hne
    | none =>
      have h2 : (update_stream nd oracle ts acc st).2 =
          setCache acc.2 st.1 ⟨heapLen acc.1, some ts, "error"⟩ := by
        simp [update_stream, hr, hl]
      rw [h2]
      exact lookupCache_setCache_other acc.2 st.1 _ name hne
  | false =>
    have h2 : (update_stream nd oracle ts acc st).2 =
        setCache acc.2 st.1 ⟨heapLen acc.1, some ts,
          entry_source (resolved_track st.1 st.2 nd oracle)⟩ := by
      simp [update_stream, hr]
    rw [h2]
    exact lookupCache_setCache_other acc.2 st.1 _ name hne

theorem update_all_lookup_notmem (streams : List (String × String)) (nd : Option NtsData)
    (oracle : UpdateOracle) (ts : String) (name : String) :
    ∀ (h : TrackHeap) (c : NPCache), name ∉ List.map Prod.fst streams →
      lookupCache (update_all_streams streams nd oracle ts h c).2 name =
        lookupCache c name := by
  induction streams with
  | nil =>
    intro h c _
    rfl
  | cons st rest ih =>
    intro h c hn
    have hn1 : name ≠ st.1 := by
      intro he
      exact hn (by simp [he])
    have hn2 : name ∉ List.map Prod.fst rest := by
      intro hm
      exact hn (by simp [hm])
    calc lookupCache (update_all_streams (st :: rest) nd oracle ts h c).2 name
        = lookupCache (update_stream nd oracle ts (h, c) st).2 name :=
          ih (update_stream nd oracle ts (h, c) st).1
            (update_stream nd oracle ts (h, c) st).2 hn2
      _ = lookupCache c name := update_stream_lookup_other nd oracle ts (h, c) st name hn1

theorem mem_setCache (c : NPCache) (k : String) (v : CacheEntry) (p : String × CacheEntry)
    (hp : p ∈ setCache c k v) : p = (k, v) ∨ p ∈ c := by
  induction c with
  | nil =>
    simp [setCache] at hp
    exact Or.inl hp
  | cons q rest ih =>
    by_cases hq : q.1 = k
    · simp only [setCache, hq, if_true] at hp
      rcases List.mem_cons.mp hp with h1 | h2
      · exact Or.inl h1
      · exact Or.inr (List.mem_cons_of_mem _ h2)
    · simp only [setCache, hq, if_false] at hp
      rcases List.mem_cons.mp hp with h1 | h2
      · exact Or.inr (h1 ▸ List.mem_cons_self _ _)
      · rcases ih h2 with h3 | h4
        · exact Or.inl h3
        · exact Or.inr (List.mem_cons_of_mem _ h4)

theorem mem_markError (c : NPCache) (k : String) (p : String × CacheEntry)
    (hp : p ∈ markError c k) : ∃ q ∈ c, p.2.track_info = q.2.track_info := by
  induction c with
  | nil => simp [markError] at hp
  | cons q rest ih =>
    by_cases hq : q.1 = k
    · simp only [markError, hq, if_true] at hp
      rcases List.mem_cons.mp hp with h1 | h2
      · exact ⟨q, List.mem_cons_self _ _, by rw [h1]⟩
      · exact ⟨p, List.mem_cons_of_mem _ h2, rfl⟩
    · simp only [markError, hq, if_false] at hp
      rcases List.mem_cons.mp hp with h1 | h2
      · exact ⟨q, List.mem_cons_self _ _, by rw [h1]⟩
      · obtain ⟨r, hr, he⟩ := ih h2
        exact ⟨r, List.mem_cons_of_mem _ hr, he⟩

theorem cacheWF_append (h l : TrackHeap) (c : NPCache) (hwf : cacheWF h c) :
    cacheWF (h ++ l) c := by
  intro p hp
  have := hwf p hp
  unfold heapLen at *
  rw [List.length_append]
  omega

theorem cacheWF_setCache (h : TrackHeap) (c : NPCache) (k : String) (v : CacheEntry)
    (hwf : cacheWF h c) (hv : v.track_info < heapLen h) : cacheWF h (setCache c k v) := by
  intro p hp
  rcases mem_setCache c k v p hp with h1 | h2
  · rw [h1]
    exact hv
  · exact hwf p h2

theorem cacheWF_markError (h : TrackHeap) (c : NPCache) (k : String) (hwf : cacheWF h c) :
    cacheWF h (markError c k) := by
  intro p hp
  obtain ⟨q, hq, he⟩ := mem_markError c k p hp
  rw [he]
  exact hwf q hq

theorem update_stream_WF (nd : Option NtsData) (oracle : UpdateOracle) (ts : String)
    (acc : TrackHeap × NPCache) (st : String × String) (hwf : cacheWF acc.1 acc.2) :
    cacheWF (update_stream nd oracle ts acc st).1 (update_stream nd oracle ts acc st).2 := by
  cases hr : oracle.raises st.1 with
  | true =>
    cases hl : lookupCache acc.2 st.1 with
    | some e =>
      have h2 : update_stream nd oracle ts acc st = (acc.1, markError acc.2 st.1) := by
        simp [update_stream, hr, hl]
      rw [h2]
      exact cacheWF_markError acc.1 acc.2 st.1 hwf
    | none =>
      have h2 : update_stream nd oracle ts acc st =
          (acc.1 ++ [get_unknown_track],
            setCache acc.2 st.1 ⟨heapLen acc.1, some ts, "error"⟩) := by
        simp [update_stream, hr, hl]
      rw [h2]
      apply cacheWF_setCache
      · exact cacheWF_append _ _ _ hwf
      · unfold heapLen
        simp
  | false =>
    have h2 : update_stream nd oracle ts acc st =
        (acc.1 ++ [(resolved_track st.1 st.2 nd oracle).getD get_unknown_track],
          setCache acc.2 st.1 ⟨heapLen acc.1, some ts,
            entry_source (resolved_track st.1 st.2 nd oracle)⟩) := by
      simp [update_stream, hr]
    rw [h2]
    apply cacheWF_setCache
    · exact cacheWF_append _ _ _ hwf
    · unfold heapLen
      simp

theorem update_stream_self_normal (nd : Option NtsData) (oracle : UpdateOracle) (ts : String)
    (acc : TrackHeap × NPCache) (st : String × String) (hr : oracle.raises st.1 = false) :
    lookupCache (update_stream nd oracle ts acc st).2 st.1 =
      some ⟨heapLen acc.1, some ts, entry_source (resolved_track st.1 st.2 nd oracle)⟩ ∧
    heapGet (update_stream nd oracle ts acc st).1 (heapLen acc.1) =
      some ((resolved_track st.1 st.2 nd oracle).getD get_unknown_track) := by
  have h2 : update_stream nd oracle ts acc st =
      (acc.1 ++ [(resolved_track st.1 st.2 nd oracle).getD get_unknown_track],
        setCache acc.2 st.1 ⟨heapLen acc.1, some ts,
          entry_source (resolved_track st.1 st.2 nd oracle)⟩) := by
    simp [update_stream, hr]
  rw [h2]
  constructor
  · exact lookupCache_setCache_self _ _ _
  · unfold heapGet heapLen
    exact List.get?_concat_length _ _

theorem update_stream_self_raises (nd : Option NtsData) (oracle : UpdateOracle) (ts : String)
    (acc : TrackHeap × NPCache) (st : String × String) (e₀ : CacheEntry)
    (hr : oracle.raises st.1 = true) (he : lookupCache acc.2 st.1 = some e₀) :
    (update_stream nd oracle ts acc st).1 = acc.1 ∧
    lookupCache (update_stream nd oracle ts acc st).2 st.1 =
      some ⟨e₀.track_info, e₀.last_updated, "error"⟩ := by
  have h2 : update_stream nd oracle ts acc st = (acc.1, markError acc.2 st.1) := by
    simp [update_stream, hr, he]
  rw [h2]
  refine ⟨rfl, ?_⟩
  rw [lookupCache_markError_self, he]
  rfl

end UpdateCycleLemmas

section UpdateCycleTheorems

open NowPlayingFetcher

/-- C6: in one _update_all_streams cycle, every stream whose per-stream body
does not raise receives its full, expected update — whatever exceptions the
oracle assigns to OTHER streams, so a per-stream exception never aborts the
rest of the loop; and a stream whose body raises keeps its prior entry with
source downgraded to error while its previous track_info object and
last_updated value are preserved unchanged. -/
theorem C6_per_stream_error_isolation (streams : List (String × String))
    (nts_data : Option NtsData) (oracle : UpdateOracle) (ts : String)
    (h : TrackHeap) (c : NPCache) (name url : String)
    (hnd : List.Nodup (List.map Prod.fst streams))
    (hwf : cacheWF h c)
    (hmem : (name, url) ∈ streams) :
    (oracle.raises name = false →
      get_now_playing (update_all_streams streams nts_data oracle ts h c).1
        (update_all_streams streams nts_data oracle ts h c).2 name =
        expected_entry name url nts_data oracle ts) ∧
    (oracle.raises name = true →
      ∀ e₀, lookupCache c name = some e₀ →
        get_now_playing (update_all_streams streams nts_data oracle ts h c).1
          (update_all_streams streams nts_data oracle ts h c).2 name =
          ⟨(heapGet h e₀.track_info).getD get_unknown_track, e₀.last_updated, "error"⟩) := by
  induction streams generalizing h c with
  | nil => simp at hmem
  | cons st rest ih =>
    rw [List.map_cons, List.nodup_cons] at hnd
    obtain ⟨hst_notin, hnd_rest⟩ := hnd
    rcases List.mem_cons.mp hmem with hhead | htail
    · subst hhead
      have hnin : name ∉ List.map Prod.fst rest := hst_notin
      constructor
      · intro hrf
        obtain ⟨hlk, hhp⟩ :=
          update_stream_self_normal nts_data oracle ts (h, c) (name, url) hrf
        have hfinal :
            lookupCache (update_all_streams ((name, url) :: rest) nts_data oracle ts h c).2
              name =
            some ⟨heapLen h, some ts, entry_source (resolved_track name url nts_data oracle)⟩ := by
          have e1 :
              lookupCache
                (update_all_streams ((name, url) :: rest) nts_data oracle ts h c).2 name =
              lookupCache (update_stream nts_data oracle ts (h, c) (name, url)).2 name :=
            update_all_lookup_notmem rest nts_data oracle ts name
              (update_stream nts_data oracle ts (h, c) (name, url)).1
              (update_stream nts_data oracle ts (h, c) (name, url)).2 hnin
          rw [e1]
          exact hlk
        have hhp' :
            heapGet (update_stream nts_data oracle ts (h, c) (name, url)).1 (heapLen h) =
            some ((resolved_track name url nts_data oracle).getD get_unknown_track) := hhp
        obtain ⟨hlt', _⟩ := List.get?_eq_some.mp hhp'
        obtain ⟨l2, hl2⟩ := update_all_heap_ext rest nts_data oracle ts
          (update_stream nts_data oracle ts (h, c) (name, url)).1
          (update_stream nts_data oracle ts (h, c) (name, url)).2
        have e2fold :
            (update_all_streams ((name, url) :: rest) nts_data oracle ts h c).1 =
            (update_stream nts_data oracle ts (h, c) (name, url)).1 ++ l2 := hl2
        have e3 :
            heapGet (update_all_streams ((name, url) :: rest) nts_data oracle ts h c).1
              (heapLen h) =
            some ((resolved_track name url nts_data oracle).getD get_unknown_track) := by
          rw [e2fold]
          rw [heapGet_append _ l2 (heapLen h) hlt']
          exact hhp'
        cases hT : resolved_track name url nts_data oracle with
        | some t =>
          simp [get_now_playing, hfinal, e3, expected_entry, entry_source, hT]
        | none =>
          simp [get_now_playing, hfinal, e3, expected_entry, entry_source, hT]
      · intro hrt e₀ he₀
        obtain ⟨hheap, hlk⟩ :=
          update_stream_self_raises nts_data oracle ts (h, c) (name, url) e₀ hrt he₀
        have hfinal :
            lookupCache (update_all_streams ((name, url) :: rest) nts_data oracle ts h c).2
              name =
            some ⟨e₀.track_info, e₀.last_updated, "error"⟩ := by
          have e1 :
              lookupCache
                (update_all_streams ((name, url) :: rest) nts_data oracle ts h c).2 name =
              lookupCache (update_stream nts_data oracle ts (h, c) (name, url)).2 name :=
            update_all_lookup_notmem rest nts_data oracle ts name
              (update_stream nts_data oracle ts (h, c) (name, url)).1
              (update_stream nts_data oracle ts (h, c) (name, url)).2 hnin
          rw [e1]
          exact hlk
        obtain ⟨l2, hl2⟩ := update_all_heap_ext rest nts_data oracle ts
          (update_stream nts_data oracle ts (h, c) (name, url)).1
          (update_stream nts_data oracle ts (h, c) (name, url)).2
        have hheap' : (update_stream nts_data oracle ts (h, c) (name, url)).1 = h := hheap
        have e2fold :
            (update_all_streams ((name, url) :: rest) nts_data oracle ts h c).1 =
            (update_stream nts_data oracle ts (h, c) (name, url)).1 ++ l2 := hl2
        rw [hheap'] at e2fold
        have haddr : e₀.track_info < heapLen h :=
          hwf (name, e₀) (lookupCache_mem c name e₀ he₀)
        have e3 :
            heapGet (update_all_streams ((name, url) :: rest) nts_data oracle ts h c).1
              e₀.track_info =
            heapGet h e₀.track_info := by
          rw [e2fold]
          exact heapGet_append h l2 e₀.track_info haddr
        simp [get_now_playing, hfinal, e3]
    · have hnamem : name ∈ List.map Prod.fst rest := List.mem_map_of_mem Prod.fst htail
      have hne : name ≠ st.1 := by
        intro he
        exact hst_notin (he ▸ hnamem)
      have hwf' : cacheWF (update_stream nts_data oracle ts (h, c) st).1
          (update_stream nts_data oracle ts (h, c) st).2 :=
        update_stream_WF nts_data oracle ts (h, c) st hwf
      have ihs := ih (update_stream nts_data oracle ts (h, c) st).1
        (update_stream nts_data oracle ts (h, c) st).2 hnd_rest hwf' htail
      constructor
      · intro hrf
        exact ihs.1 hrf
      · intro hrt e₀ he₀
        have he₀' : lookupCache (update_stream nts_data oracle ts (h, c) st).2 name =
            some e₀ := by
          rw [update_stream_lookup_other nts_data oracle ts (h, c) st name hne]
          exact he₀
        have h2 := ihs.2 hrt e₀ he₀'
        have haddr : e₀.track_info < heapLen h :=
          hwf (name, e₀) (lookupCache_mem c name e₀ he₀)
        obtain ⟨l1, hl1⟩ := update_stream_heap_ext nts_data oracle ts (h, c) st
        have e4 : heapGet (update_stream nts_data oracle ts (h, c) st).1 e₀.track_info =
            heapGet h e₀.track_info := by
          rw [hl1]
          exact heapGet_append h l1 e₀.track_info haddr
        rw [e4] at h2
        exact h2

theorem C6_per_stream_error_isolation_witness :
    get_now_playing
        (update_all_streams [("NTS1", "u1"), ("NTS2", "u2")] none
          ⟨fun n => n == "NTS2", fun _ => none⟩ "T1"
          [⟨"Old", "Old", "Show", none, none, "nts_api"⟩]
          [("NTS2", ⟨0, some "T0", "nts_api"⟩)]).1
        (update_all_streams [("NTS1", "u1"), ("NTS2", "u2")] none
          ⟨fun n => n == "NTS2", fun _ => none⟩ "T1"
          [⟨"Old", "Old", "Show", none, none, "nts_api"⟩]
          [("NTS2", ⟨0, some "T0", "nts_api"⟩)]).2 "NTS1" =
      expected_entry "NTS1" "u1" none ⟨fun n => n == "NTS2", fun _ => none⟩ "T1" ∧
    get_now_playing
        (update_all_streams [("NTS1", "u1"), ("NTS2", "u2")] none
          ⟨fun n => n == "NTS2", fun _ => none⟩ "T1"
          [⟨"Old", "Old", "Show", none, none, "nts_api"⟩]
          [("NTS2", ⟨0, some "T0", "nts_api"⟩)]).1
        (update_all_streams [("NTS1", "u1"), ("NTS2", "u2")] none
          ⟨fun n => n == "NTS2", fun _ => none⟩ "T1"
          [⟨"Old", "Old", "Show", none, none, "nts_api"⟩]
          [("NTS2", ⟨0, some "T0", "nts_api"⟩)]).2 "NTS2" =
      ⟨(heapGet [⟨"Old", "Old", "Show", none, none, "nts_api"⟩] 0).getD get_unknown_track,
        some "T0", "error"⟩ :=
  ⟨(C6_per_stream_error_isolation [("NTS1", "u1"), ("NTS2", "u2")] none
      ⟨fun n => n == "NTS2", fun _ => none⟩ "T1"
      [⟨"Old", "Old", "Show", none, none, "nts_api"⟩]
      [("NTS2", ⟨0, some "T0", "nts_api"⟩)] "NTS1" "u1"
      (by decide) (by decide) (by decide)).1 (by decide),
    (C6_per_stream_error_isolation [("NTS1", "u1"), ("NTS2", "u2")] none
      ⟨fun n => n == "NTS2", fun _ => none⟩ "T1"
      [⟨"Old", "Old", "Show", none, none, "nts_api"⟩]
      [("NTS2", ⟨0, some "T0", "nts_api"⟩)] "NTS2" "u2"
      (by decide) (by decide) (by decide)).2 (by decide)
      ⟨0, some "T0", "nts_api"⟩ (by decide)⟩

end UpdateCycleTheorems
